import Mathlib

/-!
Verification of the OM1 provider layer against its specification.

The definitions below are a shallow embedding of the two source files the
claims concern:
  src/providers/simple_paths_provider.py  (path ingestion and classification)
  src/providers/asr_provider.py           (lifecycle and reconnect controller)
Python ints are modelled as Int; Python lists as List; mutation as explicit
state passing; each Python attribute assignment as one atomic write.
-/

namespace OM1

/-- An element of a received paths list: either a Python int or a value of
some other type (the derived processor skips the latter). -/
inductive PathElem
  | int (n : Int)
  | other
deriving DecidableEq

/-- The four movement-option attributes of SimplePathsProvider that the
derived processor rebuilds per frame: turn_left, advance, turn_right
(lists of path indices) and the retreat flag. -/
structure Buckets where
  turn_left : List Int
  advance : List Int
  turn_right : List Int
  retreat : Bool
deriving DecidableEq

/-- The loop body of `_simple_paths_derived_processor` for one element of
`paths.paths` (simple_paths_provider.py lines 254-271): skip a non-int,
skip an out-of-range index, otherwise append to the bucket selected by the
elif chain (path < 3, then 3 <= path <= 5, then path < 9, then path == 9). -/
def classifyStep (b : Buckets) (p : PathElem) : Buckets :=
  match p with
  | .other => b
  | .int path =>
    if path < 0 ∨ path > 9 then b
    else if path < 3 then { b with turn_left := b.turn_left ++ [path] }
    else if 3 ≤ path ∧ path ≤ 5 then { b with advance := b.advance ++ [path] }
    else if path < 9 then { b with turn_right := b.turn_right ++ [path] }
    else if path = 9 then { b with retreat := true }
    else b

/-- The full per-frame classification: buckets are reset to empty and the
loop of `_simple_paths_derived_processor` runs over the list. -/
def classifyPaths (paths : List PathElem) : Buckets :=
  paths.foldl classifyStep ⟨[], [], [], false⟩

/-- The fixed immobility message returned by `_generate_movement_string`
when the argument list is empty (simple_paths_provider.py line 305). -/
def cannotMoveMessage : String :=
  "You are surrounded by objects and cannot safely move in any direction. DO NOT MOVE."

/-- `_generate_movement_string` (simple_paths_provider.py lines 284-319):
the empty-argument check uses the raw list passed in, while the verb parts
are chosen from the instance buckets; the parts are joined with "". -/
def generate_movement_string (b : Buckets) (valid_paths : List PathElem) : String :=
  if valid_paths = [] then
    cannotMoveMessage
  else
    String.join
      (["The safe movement directions are: \x7b"]
        ++ (if b.turn_left ≠ [] then ["\x27turn left\x27, "] else [])
        ++ (if b.advance ≠ [] then ["\x27move forwards\x27, "] else [])
        ++ (if b.turn_right ≠ [] then ["\x27turn right\x27, "] else [])
        ++ (if b.retreat then ["\x27move back\x27, "] else [])
        ++ ["\x27stand still\x27\x7d. "])

/-- The derived state written by `_simple_paths_derived_processor` for one
frame and read back through the `movement_options` and `lidar_string`
accessors. -/
structure Snapshot where
  turn_left : List Int
  advance : List Int
  turn_right : List Int
  retreat : Bool
  lidar_string : String
deriving DecidableEq

/-- The effect of `_simple_paths_derived_processor` on one dequeued frame
whose `paths` attribute is a list (simple_paths_provider.py lines 239-274):
an empty list resets every bucket and stores the immobility message;
otherwise the buckets are rebuilt by the classification loop and the
summary is generated from the raw unfiltered list. -/
def processFrame (paths : List PathElem) : Snapshot :=
  if paths = [] then
    { turn_left := [], advance := [], turn_right := [], retreat := false,
      lidar_string := generate_movement_string ⟨[], [], [], false⟩ [] }
  else
    let b := classifyPaths paths
    { turn_left := b.turn_left, advance := b.advance,
      turn_right := b.turn_right, retreat := b.retreat,
      lidar_string := generate_movement_string b paths }

/-- The push performed by `paths_callback` (simple_paths_provider.py lines
49-56) on the capacity-bounded data queue: `put_nowait`, and on `Full`
remove one oldest element with `get_nowait` and insert; on `Empty` during
that removal the new item is dropped. -/
def pathsPush {α : Type} (cap : Nat) (q : List α) (x : α) : List α :=
  if q.length < cap then q ++ [x]
  else
    match q with
    | [] => []
    | _ :: t => t ++ [x]

/-- `get_nowait` on the consumer side: the oldest retained element, or
none when the queue is empty. -/
def pop_nonblocking {α : Type} : List α → Option (α × List α)
  | [] => none
  | x :: t => some (x, t)

/-- An element the classification loop skips: a non-int value, or an int
outside the valid range 0..9. -/
def invalidElem : PathElem → Prop
  | .other => True
  | .int n => n < 0 ∨ n > 9

instance (p : PathElem) : Decidable (invalidElem p) := by
  cases p <;> simp only [invalidElem] <;> infer_instance

/-- Occurrence of one string inside another, as infix of character lists. -/
def strContains (pat s : String) : Prop := pat.data <:+: s.data

instance (pat s : String) : Decidable (strContains pat s) := by
  simp only [strContains]; infer_instance

theorem classifyStep_invalid (b : Buckets) (p : PathElem)
    (h : invalidElem p) : classifyStep b p = b := by
  cases p with
  | other => rfl
  | int n =>
    simp only [invalidElem] at h
    simp only [classifyStep]
    rw [if_pos h]

theorem classifyPaths_all_invalid (paths : List PathElem) (b : Buckets)
    (h : ∀ p ∈ paths, invalidElem p) : paths.foldl classifyStep b = b := by
  induction paths generalizing b with
  | nil => rfl
  | cons p ps ih =>
    simp only [List.foldl_cons]
    rw [classifyStep_invalid b p (h p (by simp))]
    exact ih b (fun q hq => h q (by simp [hq]))

/-- Claim C1: each integer index of a processed frame is classified into
exactly one bucket: 0..2 appends to turn_left only, 3..5 to advance only,
6..8 to turn_right only, 9 sets the retreat flag only, while an
out-of-range int or a non-int element changes nothing. -/
theorem claim1_classification_exhaustive (b : Buckets) (n : Int) :
    ((0 ≤ n ∧ n ≤ 2) →
      classifyStep b (.int n) = { b with turn_left := b.turn_left ++ [n] }) ∧
    ((3 ≤ n ∧ n ≤ 5) →
      classifyStep b (.int n) = { b with advance := b.advance ++ [n] }) ∧
    ((6 ≤ n ∧ n ≤ 8) →
      classifyStep b (.int n) = { b with turn_right := b.turn_right ++ [n] }) ∧
    (n = 9 → classifyStep b (.int n) = { b with retreat := true }) ∧
    ((n < 0 ∨ n > 9) → classifyStep b (.int n) = b) ∧
    classifyStep b .other = b := by
  refine ⟨?_, ?_, ?_, ?_, ?_, rfl⟩ <;> intro h <;>
    simp only [classifyStep] <;> split_ifs <;> first | rfl | omega

theorem claim1_witness :
    classifyStep ⟨[], [], [], false⟩ (.int 1) = ⟨[1], [], [], false⟩ :=
  (claim1_classification_exhaustive ⟨[], [], [], false⟩ 1).1 (by decide)

/-- Claim C2: a push into the full capacity-5 data queue evicts exactly
the single oldest retained item and inserts the new one; pushing six items
into the empty queue retains items 2..6, and pop returns them in their
insertion order. -/
theorem claim2_queue_drop_oldest {α : Type} (q : List α) (x : α)
    (x1 x2 x3 x4 x5 x6 : α) (hfull : q.length = 5) :
    pathsPush 5 q x = q.tail ++ [x] ∧
    [x1, x2, x3, x4, x5, x6].foldl (pathsPush 5) [] = [x2, x3, x4, x5, x6] ∧
    pop_nonblocking ([x1, x2, x3, x4, x5, x6].foldl (pathsPush 5) []) =
      some (x2, [x3, x4, x5, x6]) ∧
    pop_nonblocking [x3, x4, x5, x6] = some (x3, [x4, x5, x6]) ∧
    pop_nonblocking [x4, x5, x6] = some (x4, [x5, x6]) ∧
    pop_nonblocking [x5, x6] = some (x5, [x6]) ∧
    pop_nonblocking [x6] = some (x6, ([] : List α)) ∧
    pop_nonblocking ([] : List α) = none := by
  refine ⟨?_, rfl, rfl, rfl, rfl, rfl, rfl, rfl⟩
  cases q with
  | nil => simp at hfull
  | cons a t =>
    have hlen : ¬ ((a :: t).length < 5) := by
      simp only [List.length_cons] at hfull ⊢
      omega
    simp only [pathsPush]
    rw [if_neg hlen]
    rfl

theorem claim2_witness :
    pathsPush 5 [1, 2, 3, 4, 5] 6 = [2, 3, 4, 5, 6] := by
  have h := claim2_queue_drop_oldest [1, 2, 3, 4, 5] 6 1 2 3 4 5 6 (by decide)
  exact h.1

/-- Claim C3: processing a frame with an empty path list resets every
bucket, clears the retreat flag, and stores verbatim the fixed
immobility message. -/
theorem claim3_empty_frame :
    processFrame [] =
      { turn_left := [], advance := [], turn_right := [], retreat := false,
        lidar_string := "You are surrounded by objects and cannot safely move in any direction. DO NOT MOVE." } := by
  rfl

set_option maxRecDepth 10000 in
/-- Claim C4: for every non-empty path list the summary is the fixed
prefix followed by exactly the verbs of the non-empty buckets in the fixed
order turn left, move forwards, turn right, move back, always ending with
stand still; and the frame [1, 4, 9] yields buckets [1], [4], [] with
retreat set, a summary containing turn left, move forwards, move back and
stand still, and omitting turn right. -/
theorem claim4_summary_structure (b : Buckets) (paths : List PathElem)
    (hne : paths ≠ []) :
    generate_movement_string b paths =
      "The safe movement directions are: \x7b"
        ++ (if b.turn_left ≠ [] then "\x27turn left\x27, " else "")
        ++ (if b.advance ≠ [] then "\x27move forwards\x27, " else "")
        ++ (if b.turn_right ≠ [] then "\x27turn right\x27, " else "")
        ++ (if b.retreat then "\x27move back\x27, " else "")
        ++ "\x27stand still\x27\x7d. " ∧
    processFrame [.int 1, .int 4, .int 9] =
      { turn_left := [1], advance := [4], turn_right := [], retreat := true,
        lidar_string := "The safe movement directions are: \x7b\x27turn left\x27, \x27move forwards\x27, \x27move back\x27, \x27stand still\x27\x7d. " } ∧
    strContains "turn left" (processFrame [.int 1, .int 4, .int 9]).lidar_string ∧
    strContains "move forwards" (processFrame [.int 1, .int 4, .int 9]).lidar_string ∧
    strContains "move back" (processFrame [.int 1, .int 4, .int 9]).lidar_string ∧
    strContains "stand still" (processFrame [.int 1, .int 4, .int 9]).lidar_string ∧
    ¬ strContains "turn right" (processFrame [.int 1, .int 4, .int 9]).lidar_string := by
  refine ⟨?_, by decide, by decide, by decide, by decide, by decide, by decide⟩
  simp only [generate_movement_string, if_neg hne]
  by_cases h1 : b.turn_left = [] <;> by_cases h2 : b.advance = [] <;>
    by_cases h3 : b.turn_right = [] <;> by_cases h4 : b.retreat = true <;>
    simp [h1, h2, h3, h4, String.join]

theorem claim4_witness :
    generate_movement_string ⟨[1], [4], [], true⟩ [.int 1, .int 4, .int 9] =
      "The safe movement directions are: \x7b"
        ++ (if ([1] : List Int) ≠ [] then "\x27turn left\x27, " else "")
        ++ (if ([4] : List Int) ≠ [] then "\x27move forwards\x27, " else "")
        ++ (if ([] : List Int) ≠ [] then "\x27turn right\x27, " else "")
        ++ (if true then "\x27move back\x27, " else "")
        ++ "\x27stand still\x27\x7d. " :=
  (claim4_summary_structure ⟨[1], [4], [], true⟩ [.int 1, .int 4, .int 9]
    (by decide)).1

set_option maxRecDepth 10000 in
/-- Claim C10: a non-empty frame all of whose elements are invalid leaves
every bucket empty and the retreat flag false, yet the stored summary is
the safe-movement sentence listing only stand still, not the fixed
immobility message, because the summary is generated from the raw
unfiltered input list. -/
theorem claim10_invalid_only_summary (paths : List PathElem)
    (hne : paths ≠ []) (hinv : ∀ p ∈ paths, invalidElem p) :
    processFrame paths =
      { turn_left := [], advance := [], turn_right := [], retreat := false,
        lidar_string := "The safe movement directions are: \x7b\x27stand still\x27\x7d. " } ∧
    ("The safe movement directions are: \x7b\x27stand still\x27\x7d. " : String) ≠
      cannotMoveMessage := by
  constructor
  · simp only [processFrame, if_neg hne, classifyPaths,
      classifyPaths_all_invalid paths ⟨[], [], [], false⟩ hinv]
    simp [generate_movement_string, if_neg hne, String.join]
  · decide

theorem claim10_witness :
    processFrame [.int 99, .other] =
      { turn_left := [], advance := [], turn_right := [], retreat := false,
        lidar_string := "The safe movement directions are: \x7b\x27stand still\x27\x7d. " } :=
  (claim10_invalid_only_summary [.int 99, .other] (by decide) (by decide)).1

/-! ### ASR provider: lifecycle and reconnect controller -/

/-- `self._max_reconnect_attempts = 10` (asr_provider.py line 98). -/
def max_reconnect_attempts : Nat := 10

/-- `self._base_reconnect_delay = 1.0` seconds (asr_provider.py line 99);
every value the delay computation takes is a whole number of seconds. -/
def base_reconnect_delay : Nat := 1

/-- `self._max_reconnect_delay = 60.0` seconds (asr_provider.py line 100). -/
def max_reconnect_delay : Nat := 60

/-- The mutable ASRProvider fields the lifecycle claims concern: the
running flag, the consecutive failed-attempt counter, and whether a
secondary stream client is configured. -/
structure ASRState where
  running : Bool
  reconnect_attempts : Nat
  hasStream : Bool
deriving DecidableEq

inductive LogLevel
  | info
  | warning
  | error
deriving DecidableEq

/-- Observable side effects of the lifecycle methods: log lines and
client or worker launches and teardowns. -/
inductive Effect
  | log (lvl : LogLevel) (msg : String)
  | startWsClient
  | startAudioStream
  | startStreamClient
  | spawnReconnectMonitor
  | stopAudioStream
  | stopWsClient
  | stopStreamClient
deriving DecidableEq

/-- Result of one lifecycle call: the new state, the emitted effects in
order, and the exception propagated to the caller, when any. -/
structure CallOutcome where
  state : ASRState
  effects : List Effect
  raised : Option String
deriving DecidableEq

/-- `ASRProvider.start` (asr_provider.py lines 137-185): under the lock an
already-running provider logs one warning and returns; otherwise running
is set, the counter cleared, and the side effects run outside the lock,
any exception rolling running back to false and being re-raised. The
parameter models whether the side-effect block raises, and with what. -/
def ASRProvider_start (s : ASRState) (sideEffectError : Option String) :
    CallOutcome :=
  if s.running then
    { state := s,
      effects := [.log .warning "ASR provider is already running"],
      raised := none }
  else
    let s1 : ASRState := { s with running := true, reconnect_attempts := 0 }
    match sideEffectError with
    | none =>
      { state := s1,
        effects :=
          [.log .info "Starting ASR provider with thread-safe initialization",
            .startWsClient, .startAudioStream]
          ++ (if s.hasStream then [.startStreamClient] else [])
          ++ [.spawnReconnectMonitor,
            .log .info "ASR provider started successfully"],
        raised := none }
    | some e =>
      { state := { s1 with running := false },
        effects :=
          [.log .info "Starting ASR provider with thread-safe initialization",
            .log .error "Failed to start ASR provider"],
        raised := some e }

/-- `ASRProvider.stop` (asr_provider.py lines 187-226): a stopped provider
logs one warning and returns; otherwise running is cleared and the cleanup
runs outside the lock, any exception absorbed into an error log and never
re-raised. -/
def ASRProvider_stop (s : ASRState) (sideEffectError : Option String) :
    CallOutcome :=
  if s.running = false then
    { state := s,
      effects := [.log .warning "ASR provider is not running"],
      raised := none }
  else
    let s1 : ASRState := { s with running := false }
    match sideEffectError with
    | none =>
      { state := s1,
        effects :=
          [.log .info "Stopping ASR provider", .stopAudioStream, .stopWsClient]
          ++ (if s.hasStream then [.stopStreamClient] else [])
          ++ [.log .info "ASR provider stopped successfully"],
        raised := none }
    | some _ =>
      { state := s1,
        effects :=
          [.log .info "Stopping ASR provider",
            .log .error "Error during ASR provider stop"],
        raised := none }

/-- The exponential backoff delay computed by `_attempt_reconnect`
(asr_provider.py lines 326-329). -/
def backoff_delay (attempts : Nat) : Nat :=
  min (base_reconnect_delay * 2 ^ attempts) max_reconnect_delay

/-- `_attempt_reconnect` (asr_provider.py lines 312-386) in a sequential
model: a stopped provider returns at once with no delay; otherwise the
backoff delay is waited, and the counter is reset to 0 after a successful
restart or set to the captured attempts + 1 after an exception. -/
def attempt_reconnect (s : ASRState) (success : Bool) :
    ASRState × Option Nat :=
  if s.running = false then (s, none)
  else
    let delay := backoff_delay s.reconnect_attempts
    let attempts := s.reconnect_attempts + 1
    if success then ({ s with reconnect_attempts := 0 }, some delay)
    else ({ s with reconnect_attempts := attempts }, some delay)

/-- Observable counters of the reconnection monitor: terminal error log
lines emitted by `_should_reconnect` and invocations of
`_attempt_reconnect`. -/
structure MonitorState where
  running : Bool
  reconnect_attempts : Nat
  terminal_errors : Nat
  attempt_calls : Nat
deriving DecidableEq

/-- `_should_reconnect` (asr_provider.py lines 276-310): under the lock a
stopped provider answers false, and an exhausted attempt budget logs the
terminal error and answers false; past the lock the connection-health
check is a stub that always answers false. -/
def should_reconnect (s : MonitorState) : Bool × MonitorState :=
  if s.running = false then (false, s)
  else if s.reconnect_attempts ≥ max_reconnect_attempts then
    (false, { s with terminal_errors := s.terminal_errors + 1 })
  else (false, s)

/-- One tick of `_reconnect_monitor_loop` (asr_provider.py lines 258-266):
evaluate `_should_reconnect` and invoke `_attempt_reconnect` when it
answers true. -/
def monitor_tick (s : MonitorState) : MonitorState :=
  let r := should_reconnect s
  if r.1 then { r.2 with attempt_calls := r.2.attempt_calls + 1 } else r.2

/-- Claim C5 fails as stated: with the budget exhausted the monitor loop
performs no further attempt, but every tick logs the terminal error
again, so after two ticks it has been logged twice, not exactly once. -/
theorem claim5_counterexample :
    (monitor_tick (monitor_tick ⟨true, 10, 0, 0⟩)).attempt_calls = 0 ∧
    (monitor_tick (monitor_tick ⟨true, 10, 0, 0⟩)).terminal_errors = 2 ∧
    (monitor_tick (monitor_tick ⟨true, 10, 0, 0⟩)).terminal_errors ≠ 1 := by
  decide

/-- Claim C5 amended: once the counter has reached the maximum of 10, the
monitor loop never performs another reconnection attempt and never changes
the counter, and it logs the terminal error once per tick, hence at least
once, but not exactly once overall. -/
theorem claim5_budget_exhausted (s : MonitorState) (k : Nat)
    (hrun : s.running = true) (hmax : s.reconnect_attempts ≥ 10) :
    (monitor_tick^[k] s).attempt_calls = s.attempt_calls ∧
    (monitor_tick^[k] s).reconnect_attempts = s.reconnect_attempts ∧
    (monitor_tick^[k] s).terminal_errors = s.terminal_errors + k := by
  induction k generalizing s with
  | zero => simp
  | succ k ih =>
    have hstep : monitor_tick s =
        { s with terminal_errors := s.terminal_errors + 1 } := by
      simp [monitor_tick, should_reconnect, hrun, hmax, max_reconnect_attempts]
    rw [Function.iterate_succ_apply, hstep]
    obtain ⟨h1, h2, h3⟩ :=
      ih { s with terminal_errors := s.terminal_errors + 1 } hrun hmax
    refine ⟨h1, h2, ?_⟩
    have hproj :
        ({ s with terminal_errors := s.terminal_errors + 1 } :
          MonitorState).terminal_errors = s.terminal_errors + 1 := rfl
    rw [h3, hproj]
    omega

theorem claim5_witness :
    (monitor_tick^[3] (⟨true, 10, 0, 0⟩ : MonitorState)).attempt_calls = 0 ∧
    (monitor_tick^[3] (⟨true, 10, 0, 0⟩ : MonitorState)).reconnect_attempts = 10 ∧
    (monitor_tick^[3] (⟨true, 10, 0, 0⟩ : MonitorState)).terminal_errors = 0 + 3 :=
  claim5_budget_exhausted ⟨true, 10, 0, 0⟩ 3 (by decide) (by decide)

/-- Claim C6: with base 1s and cap 60s, the attempt made with counter k
waits min(2 ^ k, 60) seconds, the sequence 1, 2, 4, 8, 16, 32, 60, 60,
...; a failed attempt sets the counter to k + 1 and a success resets it
to 0. -/
theorem claim6_backoff_schedule (s : ASRState) (k : Nat)
    (hrun : s.running = true) (hk : s.reconnect_attempts = k) :
    (attempt_reconnect s false).2 = some (min (2 ^ k) 60) ∧
    (k ≤ 5 → (attempt_reconnect s false).2 = some (2 ^ k)) ∧
    (6 ≤ k → (attempt_reconnect s false).2 = some 60) ∧
    (attempt_reconnect s false).1.reconnect_attempts = k + 1 ∧
    (attempt_reconnect s true).1.reconnect_attempts = 0 ∧
    (attempt_reconnect s true).2 = some (min (2 ^ k) 60) := by
  have hbd : backoff_delay k = min (2 ^ k) 60 := by
    simp [backoff_delay, base_reconnect_delay, max_reconnect_delay]
  refine ⟨?_, ?_, ?_, ?_, ?_, ?_⟩ <;>
    simp [attempt_reconnect, hrun, hk, hbd] <;> intro h
  · exact le_trans (Nat.pow_le_pow_right (by norm_num) h) (by norm_num)
  · exact le_trans (by norm_num) (Nat.pow_le_pow_right (by norm_num) h)

theorem claim6_witness :
    (attempt_reconnect ⟨true, 6, false⟩ false).2 = some 60 ∧
    (attempt_reconnect ⟨true, 6, false⟩ false).1.reconnect_attempts = 6 + 1 ∧
    (attempt_reconnect ⟨true, 6, false⟩ true).1.reconnect_attempts = 0 :=
  ⟨(claim6_backoff_schedule ⟨true, 6, false⟩ 6 rfl rfl).2.2.1 (by norm_num),
   (claim6_backoff_schedule ⟨true, 6, false⟩ 6 rfl rfl).2.2.2.1,
   (claim6_backoff_schedule ⟨true, 6, false⟩ 6 rfl rfl).2.2.2.2.1⟩

/-- Claim C7: start on a running provider logs exactly one warning, keeps
the state running, spawns nothing and raises nothing; stop on a stopped
provider logs one warning, keeps it stopped and raises nothing. -/
theorem claim7_idempotent_lifecycle (s t : ASRState) (e1 e2 : Option String)
    (hs : s.running = true) (ht : t.running = false) :
    ASRProvider_start s e1 =
      { state := s,
        effects := [.log .warning "ASR provider is already running"],
        raised := none } ∧
    (ASRProvider_start s e1).state.running = true ∧
    Effect.spawnReconnectMonitor ∉ (ASRProvider_start s e1).effects ∧
    ASRProvider_stop t e2 =
      { state := t,
        effects := [.log .warning "ASR provider is not running"],
        raised := none } ∧
    (ASRProvider_stop t e2).state.running = false := by
  have h1 : ASRProvider_start s e1 =
      { state := s,
        effects := [.log .warning "ASR provider is already running"],
        raised := none } := by
    simp [ASRProvider_start, hs]
  have h2 : ASRProvider_stop t e2 =
      { state := t,
        effects := [.log .warning "ASR provider is not running"],
        raised := none } := by
    simp [ASRProvider_stop, ht]
  refine ⟨h1, ?_, ?_, h2, ?_⟩
  · rw [h1]; exact hs
  · rw [h1]; simp
  · rw [h2]; exact ht

theorem claim7_witness :
    ASRProvider_start ⟨true, 0, false⟩ none =
      { state := ⟨true, 0, false⟩,
        effects := [.log .warning "ASR provider is already running"],
        raised := none } ∧
    ASRProvider_stop ⟨false, 0, false⟩ none =
      { state := ⟨false, 0, false⟩,
        effects := [.log .warning "ASR provider is not running"],
        raised := none } :=
  ⟨(claim7_idempotent_lifecycle ⟨true, 0, false⟩ ⟨false, 0, false⟩
      none none rfl rfl).1,
   (claim7_idempotent_lifecycle ⟨true, 0, false⟩ ⟨false, 0, false⟩
      none none rfl rfl).2.2.2.1⟩

/-- Claim C8: when the side effects of start raise, the running flag is
rolled back to false and the same exception is re-raised to the caller. -/
theorem claim8_start_rollback (s : ASRState) (e : String)
    (hs : s.running = false) :
    (ASRProvider_start s (some e)).state.running = false ∧
    (ASRProvider_start s (some e)).raised = some e := by
  simp [ASRProvider_start, hs]

/-! ### Atomic-write interleaving model of the derived processor

`_simple_paths_derived_processor` updates the instance attributes read by
the `movement_options` and `lidar_string` accessors one Python attribute
assignment at a time; each assignment is one atomic write, and a
concurrent reader can run between any two of them. -/

/-- The shared attribute values set by `SimplePathsProvider.__init__`
(simple_paths_provider.py lines 154-163). -/
def initShared : Snapshot :=
  { turn_left := [], advance := [], turn_right := [], retreat := false,
    lidar_string := "" }

/-- The four reset assignments at the start of frame processing
(simple_paths_provider.py lines 241-244 and 249-252), one atomic
attribute write each, in source order. -/
def resetWrites : List (Snapshot → Snapshot) :=
  [fun s => { s with turn_left := [] },
   fun s => { s with turn_right := [] },
   fun s => { s with advance := [] },
   fun s => { s with retreat := false }]

/-- The attribute writes the classification loop performs for one list
element: at most one in-place append or flag set. -/
def elemWrites (p : PathElem) : List (Snapshot → Snapshot) :=
  match p with
  | .other => []
  | .int n =>
    if n < 0 ∨ n > 9 then []
    else if n < 3 then [fun s => { s with turn_left := s.turn_left ++ [n] }]
    else if 3 ≤ n ∧ n ≤ 5 then [fun s => { s with advance := s.advance ++ [n] }]
    else if n < 9 then [fun s => { s with turn_right := s.turn_right ++ [n] }]
    else if n = 9 then [fun s => { s with retreat := true }]
    else []

/-- The final summary assignment of frame processing
(simple_paths_provider.py lines 246 and 274): one atomic write whose
value is generated from the bucket attributes current at that moment and
the raw list. -/
def summaryWrite (paths : List PathElem) (s : Snapshot) : Snapshot :=
  { s with lidar_string :=
      (generate_movement_string
        (Buckets.mk s.turn_left s.advance s.turn_right s.retreat) paths) }

/-- The full sequence of atomic attribute writes the derived processor
performs for one frame whose paths attribute is a list, in source
order. -/
def frameWrites (paths : List PathElem) : List (Snapshot → Snapshot) :=
  if paths = [] then resetWrites ++ [summaryWrite []]
  else resetWrites ++ paths.flatMap elemWrites ++ [summaryWrite paths]

/-- The state after all writes of a frame have been applied. -/
def applyWrites (s : Snapshot) (ws : List (Snapshot → Snapshot)) : Snapshot :=
  ws.foldl (fun t w => w t) s

/-- Every state a concurrent reader of the accessors can observe while a
sequence of writes is being applied: before each write and after the
last. -/
def visibleStates (s : Snapshot) (ws : List (Snapshot → Snapshot)) :
    List Snapshot :=
  ws.scanl (fun t w => w t) s

/-- The snapshot after frame [0, 3] has been fully processed from the
initial state. -/
def snapAfterFrame03 : Snapshot :=
  applyWrites initShared (frameWrites [.int 0, .int 3])

/-- The state one write into the processing of frame [1, 4]: turn_left
already cleared in place, every other field still from frame [0, 3]. -/
def tornSnapshot : Snapshot :=
  (visibleStates snapAfterFrame03 (frameWrites [.int 1, .int 4])).getD 1
    initShared

set_option maxRecDepth 10000 in
/-- Claim C9 fails as stated: while frame [1, 4] is being processed after
frame [0, 3], the state visible right after the first in-place reset
write mixes the cleared turn_left of the new frame with the advance list
and summary of the previous frame, and matches neither complete
snapshot. -/
theorem claim9_counterexample :
    tornSnapshot ∈ visibleStates snapAfterFrame03 (frameWrites [.int 1, .int 4]) ∧
    tornSnapshot ≠ snapAfterFrame03 ∧
    tornSnapshot ≠ applyWrites snapAfterFrame03 (frameWrites [.int 1, .int 4]) := by
  decide

set_option maxRecDepth 10000 in
/-- Claim C9 amended: the derived snapshot is not exposed through an
atomic swap of one immutable value; the processor mutates the shared
fields one attribute write at a time, so there are frames and an
intermediate point in the write sequence of the second frame at which a
reader observes a torn snapshot equal to neither complete snapshot. -/
theorem claim9_torn_snapshot_possible :
    ∃ (f1 f2 : List PathElem) (t : Snapshot),
      t ∈ visibleStates (applyWrites initShared (frameWrites f1))
        (frameWrites f2) ∧
      t ≠ applyWrites initShared (frameWrites f1) ∧
      t ≠ applyWrites (applyWrites initShared (frameWrites f1))
        (frameWrites f2) := by
  refine ⟨[.int 0, .int 3], [.int 1, .int 4], tornSnapshot, ?_, ?_, ?_⟩ <;>
    decide

theorem claim8_witness :
    (ASRProvider_start ⟨false, 0, true⟩ (some "socket error")).state.running
      = false ∧
    (ASRProvider_start ⟨false, 0, true⟩ (some "socket error")).raised
      = some "socket error" :=
  claim8_start_rollback ⟨false, 0, true⟩ "socket error" rfl

end OM1
